import Mathlib

/-!
Verification of the asynchronous search coordinator of ChemSpiPy
(chemspipy/search.py, with chemspipy/errors.py and chemspipy/utils.py).

The development shallowly embeds the class Results: the background worker
Results._search is modelled as a fuel-bounded loop over an explicit state
record, the remote collaborators (the status poller
cs.get_async_search_status_and_count, the result fetcher
cs.get_async_search_result, and the submission function searchfunc) are
modelled as inputs, and the blocking accessor layer (wait, message, count,
duration, indexing, iteration, exception, ready, success, status) is
modelled as functions on the final worker state returning Except values,
where Except.error models a raised Python exception.
-/

namespace ChemSpiPy

/-- Python exception values relevant to the search coordinator.
serverError models chemspipy.errors.ChemSpiPyServerError, timeoutError
models chemspipy.errors.ChemSpiPyTimeoutError, keyError and valueError
model the built-in KeyError and ValueError, indexError models the
built-in IndexError raised by list indexing. -/
inductive PyExn where
  | serverError (message : String)
  | timeoutError (message : String)
  | keyError (key : String)
  | valueError (message : String)
  | indexError (message : String)
  deriving Repr, DecidableEq

/-- Status dictionary returned by one call to
cs.get_async_search_status_and_count: the key 'status' is always present,
while 'message', 'count' and 'elapsed' may be absent (Option.none models
an absent key). -/
structure Snapshot where
  status : String
  message : Option String := none
  count : Option Int := none
  elapsed : Option String := none
  deriving Repr, DecidableEq

/-- Splits a list of characters on a separator character; mirrors the
splitting behaviour of Python string parsing used below. An input with no
separator yields a single chunk; n separators yield n + 1 chunks. -/
def splitOnChar (c : Char) : List Char → List (List Char)
  | [] => [[]]
  | x :: xs =>
    let r := splitOnChar c xs
    if x = c then [] :: r
    else
      match r with
      | [] => [[x]]
      | y :: ys => (x :: y) :: ys

/-- Numeric value of a list of decimal digit characters. -/
def digitsToNat (cs : List Char) : Nat :=
  cs.foldl (fun acc c => acc * 10 + (c.toNat - 48)) 0

/-- Parses one clock field of strptime: one or two decimal digits whose
value is at most hi (23 for %H, 59 for %M, 61 for %S). -/
def parseClockField (cs : List Char) (hi : Nat) : Option Nat :=
  if 1 ≤ cs.length ∧ cs.length ≤ 2 ∧ cs.all Char.isDigit then
    let n := digitsToNat cs
    if n ≤ hi then some n else none
  else none

/-- Parses the %f field of strptime: one to six decimal digits, scaled to
microseconds. -/
def parseFraction (cs : List Char) : Option Nat :=
  if 1 ≤ cs.length ∧ cs.length ≤ 6 ∧ cs.all Char.isDigit then
    some (digitsToNat cs * 10 ^ (6 - cs.length))
  else none

/-- Parses a '%H:%M:%S' string into a number of seconds. -/
def parseHMS (cs : List Char) : Option Nat :=
  match splitOnChar ':' cs with
  | [h, m, s] =>
    match parseClockField h 23, parseClockField m 59, parseClockField s 61 with
    | some hh, some mm, some ss => some (hh * 3600 + mm * 60 + ss)
    | _, _, _ => none
  | _ => none

/-- Model of chemspipy.utils.duration: parses a duration string with
format '%H:%M:%S.%f' when it contains a dot and '%H:%M:%S' otherwise, and
builds the resulting datetime.timedelta, represented here by its total
number of microseconds. Option.none models a raised ValueError from
strptime. -/
def duration (ts : String) : Option Nat :=
  let cs := ts.toList
  if cs.contains '.' then
    match splitOnChar '.' cs with
    | [hms, frac] =>
      match parseHMS hms, parseFraction frac with
      | some secs, some micro => some (secs * 1000000 + micro)
      | _, _ => none
    | _ => none
  else
    match parseHMS cs with
    | some secs => some (secs * 1000000)
    | _ => none

/-- State of a Results object: the attributes set by Results.__init__ with
their initial values, written by the background worker Results._search.
The fields polls, sleptMs and fetchCalls are observation counters for the
events of the run: polls counts the calls to
cs.get_async_search_status_and_count, sleptMs records the argument of
each call to time.sleep in milliseconds, and fetchCalls counts the calls
to cs.get_async_search_result. -/
structure ResultsState where
  status : String := "Created"
  exception : Option PyExn := none
  message : Option String := none
  duration : Option Nat := none
  results : List Nat := []
  polls : Nat := 0
  sleptMs : List Nat := []
  fetchCalls : Nat := 0
  deriving Repr, DecidableEq

/-- Fixed inter-poll delay: time.sleep(0.2) in Results._search, in
milliseconds. The delay is a hardcoded constant in the source, not a
parameter. -/
def sleepIntervalMs : Nat := 200

/-- How one iteration of the polling loop ends: next models falling
through to the next iteration, brk models the break statement taken on
'ResultReady' (carrying the loop variable status, the last snapshot), and
raised models an exception propagating out of the iteration. -/
inductive StepExit where
  | next : StepExit
  | brk : Snapshot → StepExit
  | raised : PyExn → StepExit
  deriving Repr, DecidableEq

/-- One iteration of the for loop in Results._search, given the response
of the poll call (Except.error models the poll call itself raising). The
body records status, message and duration, sleeps 0.2 seconds, and then
dispatches on the status string: 'ResultReady' breaks, 'Failed',
'Unknown' and 'Suspended' raise ChemSpiPyServerError with the message
prefixed by 'Search Failed: ', 'TooManyRecords' raises
ChemSpiPyServerError with message 'Too many results', and anything else
falls through to the next iteration. A missing 'elapsed' key raises
KeyError before the sleep, and an unparsable elapsed string raises
ValueError from strptime. -/
def searchStep (resp : Except PyExn Snapshot) (s : ResultsState) :
    ResultsState × StepExit :=
  let s := { s with polls := s.polls + 1 }
  match resp with
  | .error e => (s, .raised e)
  | .ok snap =>
    let s := { s with status := snap.status, message := some (snap.message.getD "") }
    match snap.elapsed with
    | none => (s, .raised (.keyError "elapsed"))
    | some ts =>
      match duration ts with
      | none => (s, .raised (.valueError ("time data does not match format: " ++ ts)))
      | some d =>
        let s := { s with duration := some d }
        let s := { s with sleptMs := s.sleptMs ++ [sleepIntervalMs] }
        if snap.status = "ResultReady" then (s, .brk snap)
        else if snap.status = "Failed" ∨ snap.status = "Unknown" ∨ snap.status = "Suspended" then
          (s, .raised (.serverError ("Search Failed: " ++ snap.message.getD "")))
        else if snap.status = "TooManyRecords" then
          (s, .raised (.serverError "Too many results"))
        else (s, .next)

/-- The exit of one loop iteration depends only on the poll response, not
on the accumulated state; stepExit exposes it on its own. -/
def stepExit (resp : Except PyExn Snapshot) : StepExit :=
  (searchStep resp {}).2

/-- How the whole polling loop ends: ready models the break on
'ResultReady' (carrying the last snapshot), raised models an exception
propagating out of the loop, exhausted models the for loop running out of
iterations so that its else clause runs. -/
inductive LoopExit where
  | ready : Snapshot → LoopExit
  | raised : PyExn → LoopExit
  | exhausted : LoopExit
  deriving Repr, DecidableEq

/-- The for loop of Results._search over range(max_requests), with the
remaining iteration count as fuel. The poll function maps the index of
the poll call (counted by the polls field) to its response. -/
def searchLoop (poll : Nat → Except PyExn Snapshot) :
    Nat → ResultsState → ResultsState × LoopExit
  | 0, s => (s, .exhausted)
  | fuel + 1, s =>
    match searchStep (poll s.polls) s with
    | (s', .brk snap) => (s', .ready snap)
    | (s', .raised e) => (s', .raised e)
    | (s', .next) => searchLoop poll fuel s'

/-- Inputs of one Results task: the submission call searchfunc(*searchargs)
(its transaction id is opaque and elided; Except.error models it raising),
the poller indexed by poll number, the fetch call
cs.get_async_search_result(rid), and the constructor parameters
raise_errors and max_requests with their Python default values. -/
structure TaskInput where
  poll : Nat → Except PyExn Snapshot
  fetch : Except PyExn (List Nat)
  submit : Except PyExn Unit := Except.ok ()
  raise_errors : Bool := false
  max_requests : Nat := 40

/-- Code after the loop in Results._search: reads status['count'] (KeyError
when absent); when positive, calls cs.get_async_search_result and stores
the result list; otherwise, when the stored message is falsy (None or
empty), sets it to 'No results found'. -/
def fetchResults (fetch : Except PyExn (List Nat)) (s : ResultsState)
    (last : Snapshot) : ResultsState :=
  match last.count with
  | none => { s with exception := some (.keyError "count") }
  | some c =>
    if 0 < c then
      let s := { s with fetchCalls := s.fetchCalls + 1 }
      match fetch with
      | .ok res => { s with results := res }
      | .error e => { s with exception := some e }
    else if s.message = none ∨ s.message = some "" then
      { s with message := some "No results found" }
    else s

/-- The whole body of Results._search: submit, poll up to max_requests
times, convert loop exhaustion into ChemSpiPyTimeoutError('Search took
too long'), fetch results on a normal exit, and store any raised
exception in the exception attribute (the try/except around the body). -/
def searchRun (inp : TaskInput) : ResultsState :=
  match inp.submit with
  | .error e => { exception := some e }
  | .ok _ =>
    match searchLoop inp.poll inp.max_requests {} with
    | (s, .raised e) => { s with exception := some e }
    | (s, .exhausted) => { s with exception := some (.timeoutError "Search took too long") }
    | (s, .ready last) => fetchResults inp.fetch s last

/-- A Results object whose background thread has terminated: the final
worker state together with the raise_errors flag given to __init__. -/
structure ResultsHandle where
  state : ResultsState
  raise_errors : Bool := false

namespace Results

/-- Model of Results.wait after the thread has terminated: join, then
raise the stored exception when raise_errors is set. -/
def wait (h : ResultsHandle) : Except PyExn Unit :=
  match h.state.exception with
  | some e => if h.raise_errors then .error e else .ok ()
  | none => .ok ()

/-- Model of Results.ready on a terminated thread: is_alive() is false, so
ready() returns True; it never joins and never raises. -/
def ready (_h : ResultsHandle) : Except PyExn Bool :=
  .ok true

/-- Model of Results.success: ready() and not self.exception attribute
being set; it never joins and never raises. -/
def success (h : ResultsHandle) : Except PyExn Bool :=
  .ok (true && h.state.exception.isNone)

/-- Model of the Results.status property: returns the last stored status
string without joining; it never raises. -/
def status (h : ResultsHandle) : Except PyExn String :=
  .ok h.state.status

/-- Model of the Results.message property: waits, then returns the stored
message. -/
def message (h : ResultsHandle) : Except PyExn (Option String) :=
  (wait h).bind fun _ => .ok h.state.message

/-- Model of Results.__len__: waits, then returns the length of the stored
result list. -/
def length (h : ResultsHandle) : Except PyExn Nat :=
  (wait h).bind fun _ => .ok h.state.results.length

/-- Model of the Results.count property: len(self). -/
def count (h : ResultsHandle) : Except PyExn Nat :=
  length h

/-- Model of the Results.duration property: waits, then returns the stored
timedelta (in microseconds). -/
def duration (h : ResultsHandle) : Except PyExn (Option Nat) :=
  (wait h).bind fun _ => .ok h.state.duration

/-- Model of the Results.exception property: waits (which re-raises the
stored exception when raise_errors is set), then returns the stored
exception. -/
def exception (h : ResultsHandle) : Except PyExn (Option PyExn) :=
  (wait h).bind fun _ => .ok h.state.exception

end Results

/-- Python list.__getitem__ with an integer index: negative indices count
from the end, and an out-of-range index raises IndexError. -/
def listGetItem (xs : List Nat) (i : Int) : Except PyExn Nat :=
  let j : Int := if i < 0 then i + xs.length else i
  if 0 ≤ j then
    match xs.get? j.toNat with
    | some x => .ok x
    | none => .error (.indexError "list index out of range")
  else .error (.indexError "list index out of range")

/-- Model of Results.__getitem__ with an integer index: waits, then
delegates to list indexing on the stored result list. -/
def Results.getItem (h : ResultsHandle) (i : Int) : Except PyExn Nat :=
  (Results.wait h).bind fun _ => listGetItem h.state.results i

/-- Model of Results.__iter__: waits, then yields the stored result list. -/
def Results.iter (h : ResultsHandle) : Except PyExn (List Nat) :=
  (Results.wait h).bind fun _ => .ok h.state.results

/-- Parameter names of Results.__init__ with their default values, in
order, as written in the source. -/
def initParams : List (String × Option String) :=
  [("cs", none), ("searchfunc", none), ("searchargs", none),
   ("raise_errors", some "False"), ("max_requests", some "40")]

def exC1 : TaskInput :=
  { poll := fun _ => .ok { status := "Failed", message := some "bad query", elapsed := some "0:00:01" },
    fetch := .ok [] }

def exC1tmr : TaskInput :=
  { poll := fun _ => .ok { status := "TooManyRecords", message := some "", count := some 3, elapsed := some "0:00:01" },
    fetch := .ok [] }

def exC2 : TaskInput :=
  { poll := fun _ => .ok { status := "Processing", message := some "", elapsed := some "0:00:01" },
    fetch := .ok [], max_requests := 5 }

def exC3 : TaskInput :=
  { poll := fun _ => .ok { status := "PartialResultReady", message := some "", count := some 5, elapsed := some "0:00:01" },
    fetch := .ok [1, 2, 3], max_requests := 1 }

def exC4 : TaskInput :=
  { poll := fun _ => .ok { status := "ResultReady", message := some "", count := some 0, elapsed := some "0:00:01" },
    fetch := .ok [7, 8] }

def exC4w : TaskInput :=
  { poll := fun _ => .ok { status := "ResultReady", message := some "", count := some 1, elapsed := some "0:00:01" },
    fetch := .ok [42] }

def exC5 : TaskInput :=
  { poll := fun _ => .ok { status := "ResultReady", message := some "", count := some 0, elapsed := some "0:00:01" },
    fetch := .ok [] }

def exC6 : TaskInput :=
  { poll := fun _ => .ok { status := "ResultReady", message := some "", count := some 1, elapsed := some "0:00:01" },
    fetch := .ok [42] }

def exC7 : ResultsState :=
  { exception := some (PyExn.serverError "Search Failed: bad query") }

def exC9 : TaskInput :=
  { poll := fun _ => .ok { status := "Processing", message := some "", elapsed := some "0:00:01" },
    fetch := .ok [], max_requests := 3 }

def exC10 : TaskInput :=
  { poll := fun _ => .ok { status := "Processing", message := some "" },
    fetch := .ok [] }

def exC8 : TaskInput :=
  { poll := fun _ => .ok { status := "Failed", message := some "oops", elapsed := some "0:00:01" },
    fetch := .ok [] }

theorem searchStep_polls (resp : Except PyExn Snapshot) (s : ResultsState) :
    ((searchStep resp s).1).polls = s.polls + 1 := by
  rcases resp with e | snap
  · rfl
  · simp only [searchStep]
    rcases h : snap.elapsed with _ | ts
    · simp [h]
    · rcases hd : duration ts with _ | d
      · simp [h, hd]
      · simp only [h, hd]
        split_ifs <;> rfl

theorem searchStep_preserve (resp : Except PyExn Snapshot) (s : ResultsState) :
    ((searchStep resp s).1).exception = s.exception ∧
    ((searchStep resp s).1).results = s.results ∧
    ((searchStep resp s).1).fetchCalls = s.fetchCalls := by
  rcases resp with e | snap
  · exact ⟨rfl, rfl, rfl⟩
  · simp only [searchStep]
    rcases h : snap.elapsed with _ | ts
    · simp [h]
    · rcases hd : duration ts with _ | d
      · simp [h, hd]
      · simp only [h, hd]
        refine ⟨?_, ?_, ?_⟩ <;> (split_ifs <;> rfl)

theorem searchStep_exit (resp : Except PyExn Snapshot) (s : ResultsState) :
    (searchStep resp s).2 = stepExit resp := by
  rcases resp with e | snap
  · rfl
  · simp only [searchStep, stepExit]
    rcases h : snap.elapsed with _ | ts
    · simp [h]
    · rcases hd : duration ts with _ | d
      · simp [h, hd]
      · simp only [h, hd]
        split_ifs <;> rfl

theorem searchStep_message_ok (snap : Snapshot) (s : ResultsState) :
    ((searchStep (Except.ok snap) s).1).message = some (snap.message.getD "") := by
  simp only [searchStep]
  rcases h : snap.elapsed with _ | ts
  · simp [h]
  · rcases hd : duration ts with _ | d
    · simp [h, hd]
    · simp only [h, hd]
      split_ifs <;> rfl

theorem searchStep_slept (resp : Except PyExn Snapshot) (s : ResultsState) :
    ((searchStep resp s).1).sleptMs = s.sleptMs ∨
    ((searchStep resp s).1).sleptMs = s.sleptMs ++ [sleepIntervalMs] := by
  rcases resp with e | snap
  · exact Or.inl rfl
  · simp only [searchStep]
    rcases h : snap.elapsed with _ | ts
    · simp [h]
    · rcases hd : duration ts with _ | d
      · simp [h, hd]
      · simp only [h, hd]
        split_ifs <;> simp

theorem stepExit_brk (resp : Except PyExn Snapshot) (snap : Snapshot)
    (h : stepExit resp = StepExit.brk snap) :
    resp = Except.ok snap ∧ snap.status = "ResultReady" ∧
    (snap.elapsed.bind duration).isSome := by
  rcases resp with e | sn
  · simp [stepExit, searchStep] at h
  · simp only [stepExit, searchStep] at h
    rcases he : sn.elapsed with _ | ts
    · simp [he] at h
    · rcases hd : duration ts with _ | d
      · simp [he, hd] at h
      · simp only [he, hd] at h
        split_ifs at h with h1
        simp only [] at h
        simp only [StepExit.brk.injEq] at h
        subst h
        exact ⟨rfl, h1, by simp [he, hd]⟩

theorem stepExit_next (resp : Except PyExn Snapshot)
    (h : stepExit resp = StepExit.next) :
    ∃ sn : Snapshot, resp = Except.ok sn ∧ (sn.elapsed.bind duration).isSome ∧
      sn.status ≠ "ResultReady" ∧
      ¬(sn.status = "Failed" ∨ sn.status = "Unknown" ∨ sn.status = "Suspended") ∧
      sn.status ≠ "TooManyRecords" := by
  rcases resp with e | sn
  · simp [stepExit, searchStep] at h
  · simp only [stepExit, searchStep] at h
    rcases he : sn.elapsed with _ | ts
    · simp [he] at h
    · rcases hd : duration ts with _ | d
      · simp [he, hd] at h
      · simp only [he, hd] at h
        split_ifs at h with h1 h2 h3
        exact ⟨sn, rfl, by simp [he, hd], h1, h2, h3⟩

theorem searchLoop_preserve (poll : Nat → Except PyExn Snapshot)
    (fuel : Nat) (s : ResultsState) :
    ((searchLoop poll fuel s).1).exception = s.exception ∧
    ((searchLoop poll fuel s).1).results = s.results ∧
    ((searchLoop poll fuel s).1).fetchCalls = s.fetchCalls := by
  induction fuel generalizing s with
  | zero => exact ⟨rfl, rfl, rfl⟩
  | succ fuel ih =>
    have hp := searchStep_preserve (poll s.polls) s
    simp only [searchLoop]
    rcases hstep : searchStep (poll s.polls) s with ⟨s', ex⟩
    rw [hstep] at hp
    cases ex with
    | next =>
      have h := ih s'
      exact ⟨h.1.trans hp.1, h.2.1.trans hp.2.1, h.2.2.trans hp.2.2⟩
    | brk snap => exact hp
    | raised e => exact hp

theorem searchLoop_all_next (poll : Nat → Except PyExn Snapshot)
    (fuel : Nat) (s : ResultsState)
    (hb : ∀ j, j < fuel → stepExit (poll (s.polls + j)) = StepExit.next) :
    (searchLoop poll fuel s).2 = LoopExit.exhausted ∧
    ((searchLoop poll fuel s).1).polls = s.polls + fuel := by
  induction fuel generalizing s with
  | zero => exact ⟨rfl, rfl⟩
  | succ fuel ih =>
    have hx : (searchStep (poll s.polls) s).2 = StepExit.next := by
      rw [searchStep_exit]
      have := hb 0 (Nat.succ_pos fuel)
      simpa using this
    simp only [searchLoop]
    rcases hstep : searchStep (poll s.polls) s with ⟨s', ex⟩
    rw [hstep] at hx
    subst hx
    have hpolls : s'.polls = s.polls + 1 := by
      have := searchStep_polls (poll s.polls) s
      rw [hstep] at this
      exact this
    have hb' : ∀ j, j < fuel → stepExit (poll (s'.polls + j)) = StepExit.next := by
      intro j hj
      rw [hpolls]
      have := hb (j + 1) (Nat.succ_lt_succ hj)
      rw [show s.polls + 1 + j = s.polls + (j + 1) by omega]
      exact this
    have h := ih s' hb'
    exact ⟨h.1, by rw [h.2, hpolls]; omega⟩

theorem searchLoop_raised_at (poll : Nat → Except PyExn Snapshot)
    (k fuel : Nat) (s : ResultsState) (e : PyExn)
    (hkf : k < fuel)
    (hb : ∀ j, j < k → stepExit (poll (s.polls + j)) = StepExit.next)
    (hx : stepExit (poll (s.polls + k)) = StepExit.raised e) :
    ∃ s', searchLoop poll fuel s = (s', LoopExit.raised e) := by
  induction k generalizing fuel s with
  | zero =>
    rcases fuel with _ | f
    · omega
    · have hx0 : (searchStep (poll s.polls) s).2 = StepExit.raised e := by
        rw [searchStep_exit]; simpa using hx
      simp only [searchLoop]
      rcases hstep : searchStep (poll s.polls) s with ⟨s', ex⟩
      rw [hstep] at hx0
      subst hx0
      exact ⟨s', rfl⟩
  | succ k ih =>
    rcases fuel with _ | f
    · omega
    · have hx0 : (searchStep (poll s.polls) s).2 = StepExit.next := by
        rw [searchStep_exit]
        have := hb 0 (Nat.succ_pos k)
        simpa using this
      simp only [searchLoop]
      rcases hstep : searchStep (poll s.polls) s with ⟨s', ex⟩
      rw [hstep] at hx0
      subst hx0
      have hpolls : s'.polls = s.polls + 1 := by
        have := searchStep_polls (poll s.polls) s
        rw [hstep] at this
        exact this
      refine ih f s' (by omega) ?_ ?_
      · intro j hj
        rw [hpolls, show s.polls + 1 + j = s.polls + (j + 1) by omega]
        exact hb (j + 1) (Nat.succ_lt_succ hj)
      · rw [hpolls, show s.polls + 1 + k = s.polls + (k + 1) by omega]
        exact hx

theorem searchLoop_brk_at (poll : Nat → Except PyExn Snapshot)
    (k fuel : Nat) (s : ResultsState) (snap : Snapshot)
    (hkf : k < fuel)
    (hb : ∀ j, j < k → stepExit (poll (s.polls + j)) = StepExit.next)
    (hx : stepExit (poll (s.polls + k)) = StepExit.brk snap) :
    ∃ s', searchLoop poll fuel s = (s', LoopExit.ready snap) ∧
      s'.message = some (snap.message.getD "") ∧
      s'.polls = s.polls + k + 1 := by
  induction k generalizing fuel s with
  | zero =>
    rcases fuel with _ | f
    · omega
    · have hx0 : (searchStep (poll s.polls) s).2 = StepExit.brk snap := by
        rw [searchStep_exit]; simpa using hx
      have hok : poll s.polls = Except.ok snap := by
        have := stepExit_brk (poll s.polls) snap (by simpa using hx)
        exact this.1
      have hmsg : ((searchStep (poll s.polls) s).1).message
          = some (snap.message.getD "") := by
        rw [hok]; exact searchStep_message_ok snap s
      have hpolls := searchStep_polls (poll s.polls) s
      simp only [searchLoop]
      rcases hstep : searchStep (poll s.polls) s with ⟨s', ex⟩
      rw [hstep] at hx0 hmsg hpolls
      subst hx0
      have hp2 : s'.polls = s.polls + 1 := hpolls
      exact ⟨s', rfl, hmsg, by omega⟩
  | succ k ih =>
    rcases fuel with _ | f
    · omega
    · have hx0 : (searchStep (poll s.polls) s).2 = StepExit.next := by
        rw [searchStep_exit]
        have := hb 0 (Nat.succ_pos k)
        simpa using this
      simp only [searchLoop]
      rcases hstep : searchStep (poll s.polls) s with ⟨s', ex⟩
      rw [hstep] at hx0
      subst hx0
      have hpolls : s'.polls = s.polls + 1 := by
        have := searchStep_polls (poll s.polls) s
        rw [hstep] at this
        exact this
      have h := ih f s' (by omega)
        (by
          intro j hj
          rw [hpolls, show s.polls + 1 + j = s.polls + (j + 1) by omega]
          exact hb (j + 1) (Nat.succ_lt_succ hj))
        (by
          rw [hpolls, show s.polls + 1 + k = s.polls + (k + 1) by omega]
          exact hx)
      rcases h with ⟨s'', heq, hmsg, hp⟩
      exact ⟨s'', heq, hmsg, by rw [hp, hpolls]; omega⟩

theorem slept_extend {a b : List Nat}
    (h : b = a ∨ b = a ++ [sleepIntervalMs]) :
    (∀ x ∈ b, x ∈ a ∨ x = sleepIntervalMs) ∧ b.length ≤ a.length + 1 := by
  rcases h with h | h <;> subst h
  · exact ⟨fun x hx => Or.inl hx, by omega⟩
  · constructor
    · intro x hx
      rcases List.mem_append.mp hx with h2 | h2
      · exact Or.inl h2
      · simp at h2
        exact Or.inr h2
    · simp

theorem searchLoop_slept (poll : Nat → Except PyExn Snapshot)
    (fuel : Nat) (s : ResultsState) :
    (∀ x ∈ ((searchLoop poll fuel s).1).sleptMs, x ∈ s.sleptMs ∨ x = sleepIntervalMs) ∧
    ((searchLoop poll fuel s).1).sleptMs.length ≤ s.sleptMs.length + fuel := by
  induction fuel generalizing s with
  | zero => exact ⟨fun x hx => Or.inl hx, Nat.le_add_right _ _⟩
  | succ fuel ih =>
    simp only [searchLoop]
    rcases hstep : searchStep (poll s.polls) s with ⟨s', ex⟩
    have hs := searchStep_slept (poll s.polls) s
    rw [hstep] at hs
    have hext := slept_extend (a := s.sleptMs) (b := s'.sleptMs) hs
    cases ex with
    | next =>
      have h := ih s'
      have goal1 : ∀ x ∈ ((searchLoop poll fuel s').1).sleptMs,
          x ∈ s.sleptMs ∨ x = sleepIntervalMs := by
        intro x hx
        rcases h.1 x hx with hmem | h200
        · exact hext.1 x hmem
        · exact Or.inr h200
      have goal2 : ((searchLoop poll fuel s').1).sleptMs.length
          ≤ s.sleptMs.length + (fuel + 1) := by
        have h2 := h.2
        have h3 := hext.2
        omega
      exact ⟨goal1, goal2⟩
    | brk snap =>
      have hl : s'.sleptMs.length ≤ s.sleptMs.length + (fuel + 1) := by
        have h3 := hext.2
        omega
      exact ⟨hext.1, hl⟩
    | raised e =>
      have hl : s'.sleptMs.length ≤ s.sleptMs.length + (fuel + 1) := by
        have h3 := hext.2
        omega
      exact ⟨hext.1, hl⟩

theorem fetchResults_preserve (f : Except PyExn (List Nat))
    (s : ResultsState) (last : Snapshot) :
    (fetchResults f s last).polls = s.polls ∧
    (fetchResults f s last).sleptMs = s.sleptMs ∧
    (fetchResults f s last).status = s.status ∧
    (fetchResults f s last).duration = s.duration := by
  rcases hc : last.count with _ | c
  · simp [fetchResults, hc]
  · simp only [fetchResults, hc]
    split_ifs with h1 h2
    · rcases f with e | res <;> simp
    · simp
    · simp

theorem searchRun_eq_ready (inp : TaskInput) (hsub : inp.submit = Except.ok ())
    (s' : ResultsState) (snap : Snapshot)
    (h : searchLoop inp.poll inp.max_requests {} = (s', LoopExit.ready snap)) :
    searchRun inp = fetchResults inp.fetch s' snap := by
  simp only [searchRun, hsub, h]

theorem searchRun_eq_raised (inp : TaskInput) (hsub : inp.submit = Except.ok ())
    (s' : ResultsState) (e : PyExn)
    (h : searchLoop inp.poll inp.max_requests {} = (s', LoopExit.raised e)) :
    searchRun inp = { s' with exception := some e } := by
  simp only [searchRun, hsub, h]

theorem searchRun_eq_exhausted (inp : TaskInput) (hsub : inp.submit = Except.ok ())
    (s' : ResultsState)
    (h : searchLoop inp.poll inp.max_requests {} = (s', LoopExit.exhausted)) :
    searchRun inp = { s' with exception := some (PyExn.timeoutError "Search took too long") } := by
  simp only [searchRun, hsub, h]

theorem init_polls : ({} : ResultsState).polls = 0 := rfl

theorem stepExit_server (snap : Snapshot) (ts : String) (d : Nat)
    (hts : snap.elapsed = some ts) (hd : duration ts = some d)
    (hst : snap.status = "Failed" ∨ snap.status = "Unknown" ∨ snap.status = "Suspended") :
    stepExit (Except.ok snap)
      = StepExit.raised (PyExn.serverError ("Search Failed: " ++ snap.message.getD "")) := by
  have hnr : ¬ snap.status = "ResultReady" := by
    rcases hst with h | h | h <;> simp [h]
  simp only [stepExit, searchStep, hts, hd]
  rw [if_neg hnr, if_pos hst]

theorem stepExit_tmr (snap : Snapshot) (ts : String) (d : Nat)
    (hts : snap.elapsed = some ts) (hd : duration ts = some d)
    (hst : snap.status = "TooManyRecords") :
    stepExit (Except.ok snap) = StepExit.raised (PyExn.serverError "Too many results") := by
  have h1 : ¬ snap.status = "ResultReady" := by simp [hst]
  have h2 : ¬ (snap.status = "Failed" ∨ snap.status = "Unknown" ∨ snap.status = "Suspended") := by
    simp [hst]
  simp only [stepExit, searchStep, hts, hd]
  rw [if_neg h1, if_neg h2, if_pos hst]

theorem stepExit_ready (snap : Snapshot) (ts : String) (d : Nat)
    (hts : snap.elapsed = some ts) (hd : duration ts = some d)
    (hst : snap.status = "ResultReady") :
    stepExit (Except.ok snap) = StepExit.brk snap := by
  simp only [stepExit, searchStep, hts, hd]
  rw [if_pos hst]

theorem stepExit_nonterminal (snap : Snapshot) (ts : String) (d : Nat)
    (hts : snap.elapsed = some ts) (hd : duration ts = some d)
    (h1 : snap.status ≠ "ResultReady")
    (h2 : ¬ (snap.status = "Failed" ∨ snap.status = "Unknown" ∨ snap.status = "Suspended"))
    (h3 : snap.status ≠ "TooManyRecords") :
    stepExit (Except.ok snap) = StepExit.next := by
  simp only [stepExit, searchStep, hts, hd]
  rw [if_neg h1, if_neg h2, if_neg h3]

theorem stepExit_elapsed_keyError (snap : Snapshot) (h : snap.elapsed = none) :
    stepExit (Except.ok snap) = StepExit.raised (PyExn.keyError "elapsed") := by
  simp [stepExit, searchStep, h]

theorem searchLoop_ready_processed (poll : Nat → Except PyExn Snapshot)
    (fuel : Nat) (s s' : ResultsState) (snap : Snapshot)
    (heq : searchLoop poll fuel s = (s', LoopExit.ready snap)) :
    ∀ k, s.polls ≤ k → k < s'.polls →
      ∃ sn, poll k = Except.ok sn ∧ (sn.elapsed.bind duration).isSome := by
  induction fuel generalizing s with
  | zero =>
    simp only [searchLoop, Prod.mk.injEq] at heq
    exact absurd heq.2 (by simp)
  | succ fuel ih =>
    simp only [searchLoop] at heq
    rcases hstep : searchStep (poll s.polls) s with ⟨s1, ex⟩
    rw [hstep] at heq
    have hpolls : s1.polls = s.polls + 1 := by
      have h := searchStep_polls (poll s.polls) s
      rw [hstep] at h
      exact h
    have hex : (searchStep (poll s.polls) s).2 = stepExit (poll s.polls) :=
      searchStep_exit (poll s.polls) s
    rw [hstep] at hex
    cases ex with
    | brk sn2 =>
      simp only [Prod.mk.injEq, LoopExit.ready.injEq] at heq
      intro k hk1 hk2
      have hk : k = s.polls := by
        have : s'.polls = s.polls + 1 := by rw [← heq.1]; exact hpolls
        omega
      subst hk
      have hinv := stepExit_brk (poll s.polls) sn2 hex.symm
      exact ⟨sn2, hinv.1, hinv.2.2⟩
    | raised e =>
      simp only [Prod.mk.injEq] at heq
      exact absurd heq.2 (by simp)
    | next =>
      intro k hk1 hk2
      rcases Nat.eq_or_lt_of_le hk1 with hk | hk
      · subst hk
        have hinv := stepExit_next (poll s.polls) hex.symm
        rcases hinv with ⟨sn, hok, hiss, _⟩
        exact ⟨sn, hok, hiss⟩
      · have := ih s1 heq
        exact this k (by omega) hk2

/-- C1 counterexample: a single poll whose snapshot is Failed with message
"bad query" stores ChemSpiPyServerError("Search Failed: bad query"), not
ServerFailure("bad query") as claimed; TooManyRecords stores
ChemSpiPyServerError("Too many results"), not "too many results". -/
theorem C1_counterexample :
    (searchRun exC1).exception = some (PyExn.serverError "Search Failed: bad query") ∧
    (searchRun exC1).exception ≠ some (PyExn.serverError "bad query") ∧
    (searchRun exC1tmr).exception = some (PyExn.serverError "Too many results") ∧
    (searchRun exC1tmr).exception ≠ some (PyExn.serverError "too many results") := by
  refine ⟨?_, ?_, ?_, ?_⟩ <;> decide

/-- C1 (amended): when the first terminal poll (index k, all earlier polls
non-terminal) returns a snapshot in state Failed, Unknown or Suspended,
the stored Failure outcome is a ServerFailure whose message is
"Search Failed: " followed by the snapshot's message (empty default);
a TooManyRecords snapshot yields a stored ServerFailure("Too many results"). -/
theorem C1_server_failure (inp : TaskInput) (k : Nat) (snap : Snapshot)
    (hsub : inp.submit = Except.ok ())
    (hk : k < inp.max_requests)
    (hb : ∀ j, j < k → stepExit (inp.poll j) = StepExit.next)
    (hpk : inp.poll k = Except.ok snap)
    (helap : (snap.elapsed.bind duration).isSome) :
    ((snap.status = "Failed" ∨ snap.status = "Unknown" ∨ snap.status = "Suspended") →
      (searchRun inp).exception
        = some (PyExn.serverError ("Search Failed: " ++ snap.message.getD ""))) ∧
    (snap.status = "TooManyRecords" →
      (searchRun inp).exception = some (PyExn.serverError "Too many results")) := by
  rcases hel : snap.elapsed with _ | ts
  · rw [hel] at helap
    simp at helap
  · rcases hdur : duration ts with _ | d
    · rw [hel] at helap
      simp [hdur] at helap
    · have hb' : ∀ j, j < k →
          stepExit (inp.poll (({} : ResultsState).polls + j)) = StepExit.next := by
        intro j hj
        show stepExit (inp.poll (0 + j)) = StepExit.next
        rw [Nat.zero_add]
        exact hb j hj
      constructor
      · intro hst
        have hx : stepExit (inp.poll (({} : ResultsState).polls + k))
            = StepExit.raised (PyExn.serverError ("Search Failed: " ++ snap.message.getD "")) := by
          show stepExit (inp.poll (0 + k)) = _
          rw [Nat.zero_add, hpk]
          exact stepExit_server snap ts d hel hdur hst
        obtain ⟨s', heq⟩ :=
          searchLoop_raised_at inp.poll k inp.max_requests {} _ hk hb' hx
        rw [searchRun_eq_raised inp hsub s' _ heq]
      · intro hst
        have hx : stepExit (inp.poll (({} : ResultsState).polls + k))
            = StepExit.raised (PyExn.serverError "Too many results") := by
          show stepExit (inp.poll (0 + k)) = _
          rw [Nat.zero_add, hpk]
          exact stepExit_tmr snap ts d hel hdur hst
        obtain ⟨s', heq⟩ :=
          searchLoop_raised_at inp.poll k inp.max_requests {} _ hk hb' hx
        rw [searchRun_eq_raised inp hsub s' _ heq]

/-- C1 witness: the amended theorem applied to the concrete Failed poll. -/
theorem C1_witness :
    (searchRun exC1).exception = some (PyExn.serverError "Search Failed: bad query") := by
  have h := C1_server_failure exC1 0
    { status := "Failed", message := some "bad query", elapsed := some "0:00:01" }
    rfl (by decide) (fun j hj => absurd hj (Nat.not_lt_zero j)) rfl (by decide)
  exact h.1 (Or.inl rfl)

/-- C2: when the first max_requests polls are all non-terminal, the loop
stops after exactly max_requests polls, the stored Failure outcome is
ChemSpiPyTimeoutError("Search took too long"), and that outcome is not a
ServerFailure of any message. -/
theorem C2_timeout (inp : TaskInput)
    (hsub : inp.submit = Except.ok ())
    (hb : ∀ j, j < inp.max_requests → stepExit (inp.poll j) = StepExit.next) :
    (searchRun inp).exception = some (PyExn.timeoutError "Search took too long") ∧
    (searchRun inp).polls = inp.max_requests ∧
    (∀ m, (searchRun inp).exception ≠ some (PyExn.serverError m)) := by
  have h := searchLoop_all_next inp.poll inp.max_requests {} (by
    intro j hj
    show stepExit (inp.poll (0 + j)) = StepExit.next
    rw [Nat.zero_add]
    exact hb j hj)
  rcases hL : searchLoop inp.poll inp.max_requests {} with ⟨s', ex⟩
  rw [hL] at h
  have hex : ex = LoopExit.exhausted := h.1
  subst hex
  have hrun := searchRun_eq_exhausted inp hsub s' hL
  have hp : s'.polls = 0 + inp.max_requests := h.2
  rw [hrun]
  refine ⟨rfl, ?_, ?_⟩
  · show s'.polls = inp.max_requests
    omega
  · intro m hcon
    have : PyExn.timeoutError "Search took too long" = PyExn.serverError m := by
      have h2 : some (PyExn.timeoutError "Search took too long")
          = some (PyExn.serverError m) := hcon
      exact Option.some.inj h2
    simp at this

/-- C2 witness: a poller that always reports Processing with max_requests 5
times out after exactly 5 polls. -/
theorem C2_witness :
    (searchRun exC2).exception = some (PyExn.timeoutError "Search took too long") ∧
    (searchRun exC2).polls = 5 := by
  have h := C2_timeout exC2 rfl (fun j _ => by
    show stepExit (.ok { status := "Processing", message := some "", elapsed := some "0:00:01" }) = StepExit.next
    decide)
  exact ⟨h.1, h.2.1⟩

/-- C3 counterexample: a poll snapshot in state PartialResultReady does not
exit the loop: its iteration falls through (stepExit is next), and with
max_requests 1 the run times out without fetching, while the claim
predicts a normal exit with results fetched and stored. -/
theorem C3_counterexample :
    stepExit (exC3.poll 0) = StepExit.next ∧
    (searchRun exC3).exception = some (PyExn.timeoutError "Search took too long") ∧
    (searchRun exC3).results = [] ∧
    (searchRun exC3).fetchCalls = 0 := by
  refine ⟨?_, ?_, ?_, ?_⟩ <;> decide

/-- C3 (amended): a PartialResultReady snapshot is treated as non-terminal,
like Processing: the iteration falls through and polling continues; only a
ResultReady snapshot exits the loop normally. -/
theorem C3_partial_nonterminal (snap : Snapshot)
    (hst : snap.status = "PartialResultReady")
    (helap : (snap.elapsed.bind duration).isSome) :
    stepExit (Except.ok snap) = StepExit.next := by
  rcases hel : snap.elapsed with _ | ts
  · rw [hel] at helap
    simp at helap
  · rcases hdur : duration ts with _ | d
    · rw [hel] at helap
      simp [hdur] at helap
    · exact stepExit_nonterminal snap ts d hel hdur
        (by simp [hst]) (by simp [hst]) (by simp [hst])

/-- C3 witness: the amended theorem applied to a concrete
PartialResultReady snapshot. -/
theorem C3_witness :
    stepExit (Except.ok { status := "PartialResultReady", message := some "", count := some 5, elapsed := some "0:00:01" })
      = StepExit.next :=
  C3_partial_nonterminal _ rfl (by decide)

/-- C4 counterexample: a run whose loop exits normally with count 0 never
calls the fetch function (fetchCalls is 0, not 1 as claimed), and the
stored ResultSet is the initial empty list, not the fetchable [7, 8]. -/
theorem C4_counterexample :
    (searchRun exC4).exception = none ∧
    (searchRun exC4).fetchCalls = 0 ∧
    (searchRun exC4).results = [] := by
  refine ⟨?_, ?_, ?_⟩ <;> decide

/-- C4 (amended): on a normal loop exit at poll k, the fetch function is
called exactly once when the last snapshot's count is positive (and the
fetched list is stored); when the count is zero or negative, or the
'count' key is absent, the fetch function is never called and the stored
ResultSet stays empty. -/
theorem C4_fetch (inp : TaskInput) (k : Nat) (snap : Snapshot)
    (hsub : inp.submit = Except.ok ())
    (hk : k < inp.max_requests)
    (hb : ∀ j, j < k → stepExit (inp.poll j) = StepExit.next)
    (hx : stepExit (inp.poll k) = StepExit.brk snap) :
    (∀ c : Int, snap.count = some c → 0 < c →
      (searchRun inp).fetchCalls = 1 ∧
      ∀ res, inp.fetch = Except.ok res → (searchRun inp).results = res) ∧
    (∀ c : Int, snap.count = some c → c ≤ 0 →
      (searchRun inp).fetchCalls = 0 ∧ (searchRun inp).results = []) ∧
    (snap.count = none →
      (searchRun inp).fetchCalls = 0 ∧ (searchRun inp).results = []) := by
  obtain ⟨s', heq, hmsg, hp⟩ :=
    searchLoop_brk_at inp.poll k inp.max_requests {} snap hk
      (by
        intro j hj
        show stepExit (inp.poll (0 + j)) = StepExit.next
        rw [Nat.zero_add]
        exact hb j hj)
      (by
        show stepExit (inp.poll (0 + k)) = StepExit.brk snap
        rw [Nat.zero_add]
        exact hx)
  have hpre := searchLoop_preserve inp.poll inp.max_requests {}
  rw [heq] at hpre
  have hres : s'.results = [] := hpre.2.1
  have hfc : s'.fetchCalls = 0 := hpre.2.2
  have hrun := searchRun_eq_ready inp hsub s' snap heq
  rw [hrun]
  refine ⟨?_, ?_, ?_⟩
  · intro c hc hcpos
    simp only [fetchResults, hc, if_pos hcpos]
    rcases hf : inp.fetch with e | res
    · refine ⟨by simp [hfc], ?_⟩
      intro res2 hres2
      exact absurd hres2 (by simp)
    · refine ⟨by simp [hfc], ?_⟩
      intro res2 hres2
      have hr : res = res2 := Except.ok.inj hres2
      subst hr
      simp
  · intro c hc hcneg
    simp only [fetchResults, hc, if_neg (by omega : ¬ 0 < c)]
    split_ifs <;> exact ⟨hfc, hres⟩
  · intro hc
    simp only [fetchResults, hc]
    exact ⟨hfc, hres⟩

/-- C4 witness: the amended theorem at a one-poll run with count 1. -/
theorem C4_witness :
    (searchRun exC4w).fetchCalls = 1 ∧ (searchRun exC4w).results = [42] := by
  have h := C4_fetch exC4w 0
    { status := "ResultReady", message := some "", count := some 1, elapsed := some "0:00:01" }
    rfl (by decide) (fun j hj => absurd hj (Nat.not_lt_zero j)) (by decide)
  exact ⟨(h.1 1 rfl (by decide)).1, (h.1 1 rfl (by decide)).2 [42] rfl⟩

/-- C5: on a normal loop exit at poll k whose snapshot has count 0, if no
poll up to and including k supplied a non-empty message, the outcome is
the empty ResultSet with no stored failure and the message is exactly
"No results found"; if the final snapshot carried a non-empty message m,
that message is preserved instead of being overwritten. -/
theorem C5_empty_message (inp : TaskInput) (k : Nat) (snap : Snapshot)
    (hsub : inp.submit = Except.ok ())
    (hk : k < inp.max_requests)
    (hb : ∀ j, j < k → stepExit (inp.poll j) = StepExit.next)
    (hx : stepExit (inp.poll k) = StepExit.brk snap)
    (hc : snap.count = some 0) :
    ((∀ j, j ≤ k → ∀ sn, inp.poll j = Except.ok sn →
        sn.message = none ∨ sn.message = some "") →
      (searchRun inp).message = some "No results found" ∧
      (searchRun inp).results = [] ∧
      (searchRun inp).exception = none ∧
      (searchRun inp).results.length = 0) ∧
    (∀ m : String, snap.message = some m → m ≠ "" →
      (searchRun inp).message = some m) := by
  obtain ⟨s', heq, hmsg, hp⟩ :=
    searchLoop_brk_at inp.poll k inp.max_requests {} snap hk
      (by
        intro j hj
        show stepExit (inp.poll (0 + j)) = StepExit.next
        rw [Nat.zero_add]
        exact hb j hj)
      (by
        show stepExit (inp.poll (0 + k)) = StepExit.brk snap
        rw [Nat.zero_add]
        exact hx)
  have hpre := searchLoop_preserve inp.poll inp.max_requests {}
  rw [heq] at hpre
  have hexc : s'.exception = none := hpre.1
  have hres : s'.results = [] := hpre.2.1
  have hok : inp.poll k = Except.ok snap := (stepExit_brk (inp.poll k) snap hx).1
  have hrun := searchRun_eq_ready inp hsub s' snap heq
  rw [hrun]
  constructor
  · intro hemp
    have hsnapmsg : snap.message = none ∨ snap.message = some "" :=
      hemp k (Nat.le_refl k) snap hok
    have hmsg' : s'.message = some "" := by
      rcases hsnapmsg with h | h <;> rw [hmsg, h] <;> rfl
    have hcond : s'.message = none ∨ s'.message = some "" := Or.inr hmsg'
    simp only [fetchResults, hc, if_neg (by omega : ¬ (0 : Int) < 0), if_pos hcond]
    simp [hres, hexc]
  · intro m hm hmne
    have hmsg' : s'.message = some m := by rw [hmsg, hm]; rfl
    have hcond : ¬ (s'.message = none ∨ s'.message = some "") := by
      rw [hmsg']
      simp [hmne]
    simp only [fetchResults, hc, if_neg (by omega : ¬ (0 : Int) < 0), if_neg hcond]
    exact hmsg'

/-- C5 witness: a one-poll run reporting ResultReady with count 0 and an
empty message yields the empty ResultSet and the message
"No results found". -/
theorem C5_witness :
    (searchRun exC5).message = some "No results found" ∧
    (searchRun exC5).results.length = 0 := by
  have h := C5_empty_message exC5 0
    { status := "ResultReady", message := some "", count := some 0, elapsed := some "0:00:01" }
    rfl (by decide) (fun j hj => absurd hj (Nat.not_lt_zero j)) (by decide) rfl
  have h2 := h.1 (by
    intro j hj sn hsn
    have : sn = { status := "ResultReady", message := some "", count := some 0, elapsed := some "0:00:01" } :=
      (Except.ok.inj hsn).symm
    subst this
    exact Or.inr rfl)
  exact ⟨h2.1, h2.2.2.2⟩

/-- C6 counterexample: a run whose very first poll returns ResultReady
exits in that iteration (one poll, no failure), yet one sleep of the
fixed delay was performed before the exit, contradicting the claim that a
ResultReady snapshot causes the loop to exit without a preceding sleep. -/
theorem C6_counterexample :
    (searchRun exC6).polls = 1 ∧
    (searchRun exC6).exception = none ∧
    (searchRun exC6).sleptMs = [sleepIntervalMs] ∧
    (searchRun exC6).sleptMs ≠ [] := by
  refine ⟨?_, ?_, ?_, ?_⟩ <;> decide

/-- C6 (amended): every iteration whose snapshot carries a parsable
elapsed field sleeps the fixed delay exactly once, after recording the
snapshot and before the state dispatch — including iterations whose state
is ResultReady or a failure state. -/
theorem C6_sleep_every_poll (snap : Snapshot) (s : ResultsState)
    (helap : (snap.elapsed.bind duration).isSome) :
    ((searchStep (Except.ok snap) s).1).sleptMs = s.sleptMs ++ [sleepIntervalMs] := by
  rcases hel : snap.elapsed with _ | ts
  · rw [hel] at helap
    simp at helap
  · rcases hdur : duration ts with _ | d
    · rw [hel] at helap
      simp [hdur] at helap
    · simp only [searchStep, hel, hdur]
      split_ifs <;> rfl

/-- C6 witness: the amended theorem at a concrete ResultReady snapshot and
the initial state: the exiting iteration still sleeps once. -/
theorem C6_witness :
    ((searchStep (Except.ok { status := "ResultReady", message := some "", count := some 1, elapsed := some "0:00:01" })
        ({} : ResultsState)).1).sleptMs = [] ++ [sleepIntervalMs] :=
  C6_sleep_every_poll _ {} (by decide)

/-- C7: after joining, when a failure is stored and raise_errors is true,
every blocking accessor (message, count, len, duration, indexing,
iteration, and the exception accessor itself) raises the stored failure;
when raise_errors is false no accessor raises the stored failure (indexing
delegates to plain list indexing); and ready, success and status never
raise in either configuration. -/
theorem C7_raise_policy (st : ResultsState) :
    (∀ e, st.exception = some e →
      Results.wait ⟨st, true⟩ = Except.error e ∧
      Results.message ⟨st, true⟩ = Except.error e ∧
      Results.count ⟨st, true⟩ = Except.error e ∧
      Results.length ⟨st, true⟩ = Except.error e ∧
      Results.duration ⟨st, true⟩ = Except.error e ∧
      (∀ i, Results.getItem ⟨st, true⟩ i = Except.error e) ∧
      Results.iter ⟨st, true⟩ = Except.error e ∧
      Results.exception ⟨st, true⟩ = Except.error e) ∧
    (Results.wait ⟨st, false⟩ = Except.ok () ∧
      Results.message ⟨st, false⟩ = Except.ok st.message ∧
      Results.count ⟨st, false⟩ = Except.ok st.results.length ∧
      Results.length ⟨st, false⟩ = Except.ok st.results.length ∧
      Results.duration ⟨st, false⟩ = Except.ok st.duration ∧
      (∀ i, Results.getItem ⟨st, false⟩ i = listGetItem st.results i) ∧
      Results.iter ⟨st, false⟩ = Except.ok st.results ∧
      Results.exception ⟨st, false⟩ = Except.ok st.exception) ∧
    (∀ b, Results.ready ⟨st, b⟩ = Except.ok true ∧
      Results.success ⟨st, b⟩ = Except.ok st.exception.isNone ∧
      Results.status ⟨st, b⟩ = Except.ok st.status) := by
  have hwf : Results.wait ⟨st, false⟩ = Except.ok () := by
    unfold Results.wait
    cases st.exception <;> simp
  refine ⟨?_, ?_, ?_⟩
  · intro e he
    have hw : Results.wait ⟨st, true⟩ = Except.error e := by
      unfold Results.wait
      rw [he]
      simp
    refine ⟨hw, ?_, ?_, ?_, ?_, ?_, ?_, ?_⟩ <;>
      simp [Results.message, Results.count, Results.length, Results.duration,
        Results.getItem, Results.iter, Results.exception, hw, Except.bind]
  · refine ⟨hwf, ?_, ?_, ?_, ?_, ?_, ?_, ?_⟩ <;>
      simp [Results.message, Results.count, Results.length, Results.duration,
        Results.getItem, Results.iter, Results.exception, hwf, Except.bind]
  · intro b
    refine ⟨rfl, ?_, rfl⟩
    simp [Results.success]

/-- C7 witness: with the stored failure of a failed search, count raises
it when raise_errors is true and returns 0 when raise_errors is false. -/
theorem C7_witness :
    Results.count ⟨exC7, true⟩
      = Except.error (PyExn.serverError "Search Failed: bad query") ∧
    Results.count ⟨exC7, false⟩ = Except.ok 0 ∧
    Results.success ⟨exC7, true⟩ = Except.ok false := by
  have h := C7_raise_policy exC7
  refine ⟨(h.1 _ rfl).2.2.1, ?_, ?_⟩
  · have h2 := h.2.1.2.2.1
    exact h2
  · have h3 := (h.2.2 true).2.1
    exact h3

theorem searchRun_eq_subfail (inp : TaskInput) (e : PyExn)
    (hsub : inp.submit = Except.error e) :
    searchRun inp = { exception := some e } := by
  simp only [searchRun, hsub]

/-- C8: once the background worker has finished, exactly one of the two
outcomes is populated: either no failure is stored (the stored ResultSet,
possibly empty, is the outcome) or a failure is stored and the ResultSet
field still holds the initial empty list (never both populated); and at
every intermediate point of the polling loop the outcome is absent (no
exception, no results). -/
theorem C8_exclusive (inp : TaskInput) :
    Xor' ((searchRun inp).exception = none)
      ((searchRun inp).exception ≠ none ∧ (searchRun inp).results = []) ∧
    (∀ fuel, ((searchLoop inp.poll fuel {}).1).exception = none ∧
      ((searchLoop inp.poll fuel {}).1).results = []) := by
  have hkey : (searchRun inp).exception = none ∨
      ((searchRun inp).exception ≠ none ∧ (searchRun inp).results = []) := by
    rcases hsub : inp.submit with e | u
    · right
      rw [searchRun_eq_subfail inp e hsub]
      exact ⟨by simp, rfl⟩
    · cases u
      rcases hL : searchLoop inp.poll inp.max_requests {} with ⟨s', ex⟩
      have hpre := searchLoop_preserve inp.poll inp.max_requests {}
      rw [hL] at hpre
      have hexc : s'.exception = none := hpre.1
      have hres : s'.results = [] := hpre.2.1
      cases ex with
      | raised e =>
        right
        rw [searchRun_eq_raised inp hsub s' e hL]
        exact ⟨by simp, hres⟩
      | exhausted =>
        right
        rw [searchRun_eq_exhausted inp hsub s' hL]
        exact ⟨by simp, hres⟩
      | ready snap =>
        rw [searchRun_eq_ready inp hsub s' snap hL]
        rcases hc : snap.count with _ | c
        · right
          simp only [fetchResults, hc]
          exact ⟨by simp, hres⟩
        · simp only [fetchResults, hc]
          split_ifs with h1 h2
          · rcases hf : inp.fetch with e | res
            · right
              exact ⟨by simp, hres⟩
            · left
              exact hexc
          · left
            exact hexc
          · left
            exact hexc
  refine ⟨?_, ?_⟩
  · rcases hkey with h | h
    · exact Or.inl ⟨h, fun hq => hq.1 h⟩
    · exact Or.inr ⟨h, fun hp => h.1 hp⟩
  · intro fuel
    have h := searchLoop_preserve inp.poll fuel {}
    exact ⟨h.1, h.2.1⟩

/-- C8 witness: the exclusivity theorem at a concrete failing run: the
failure side of the alternative holds. -/
theorem C8_witness :
    Xor' ((searchRun exC8).exception = none)
      ((searchRun exC8).exception ≠ none ∧ (searchRun exC8).results = []) :=
  (C8_exclusive exC8).1

/-- C9 counterexample: the constructor of Results has no poll_interval
parameter at all (its parameters are cs, searchfunc, searchargs,
raise_errors, max_requests); the inter-poll delay is the fixed constant
0.2 s (200 ms), as every sleep of a concrete three-poll run shows. -/
theorem C9_counterexample :
    ((initParams.map Prod.fst).contains "poll_interval" = false) ∧
    ((initParams.map Prod.fst).contains "max_requests" = true) ∧
    sleepIntervalMs = 200 ∧
    (searchRun exC9).sleptMs = [sleepIntervalMs, sleepIntervalMs, sleepIntervalMs] := by
  refine ⟨?_, ?_, ?_, ?_⟩ <;> decide

/-- C9 (amended): only the bound on poll attempts is caller-configurable
(max_requests, default 40, with raise_errors defaulting to false); the
inter-poll delay is the fixed constant 200 ms in every execution, so the
total time slept is at most max_requests times 200 ms. -/
theorem C9_bound (inp : TaskInput) (p : Nat → Except PyExn Snapshot)
    (f : Except PyExn (List Nat)) :
    ((searchRun inp).sleptMs.all fun x => x == sleepIntervalMs) = true ∧
    (searchRun inp).sleptMs.length ≤ inp.max_requests ∧
    (searchRun inp).sleptMs.sum ≤ inp.max_requests * sleepIntervalMs ∧
    ({ poll := p, fetch := f } : TaskInput).max_requests = 40 ∧
    ({ poll := p, fetch := f } : TaskInput).raise_errors = false := by
  have key : (∀ x ∈ (searchRun inp).sleptMs, x = sleepIntervalMs) ∧
      (searchRun inp).sleptMs.length ≤ inp.max_requests := by
    rcases hsub : inp.submit with e | u
    · rw [searchRun_eq_subfail inp e hsub]
      constructor
      · intro x hx
        exact absurd hx (by simp)
      · exact Nat.zero_le _
    · cases u
      rcases hL : searchLoop inp.poll inp.max_requests {} with ⟨s', ex⟩
      have hs := searchLoop_slept inp.poll inp.max_requests {}
      rw [hL] at hs
      have hall : ∀ x ∈ s'.sleptMs, x = sleepIntervalMs := by
        intro x hx
        rcases hs.1 x hx with h | h
        · exact absurd h (by simp)
        · exact h
      have hlen : s'.sleptMs.length ≤ inp.max_requests := by
        have h3 : s'.sleptMs.length ≤ 0 + inp.max_requests := hs.2
        omega
      cases ex with
      | raised e =>
        rw [searchRun_eq_raised inp hsub s' e hL]
        exact ⟨hall, hlen⟩
      | exhausted =>
        rw [searchRun_eq_exhausted inp hsub s' hL]
        exact ⟨hall, hlen⟩
      | ready snap =>
        rw [searchRun_eq_ready inp hsub s' snap hL,
          (fetchResults_preserve inp.fetch s' snap).2.1]
        exact ⟨hall, hlen⟩
  refine ⟨?_, key.2, ?_, rfl, rfl⟩
  · rw [List.all_eq_true]
    intro x hx
    rw [beq_iff_eq]
    exact key.1 x hx
  · have h1 : (searchRun inp).sleptMs.sum
        ≤ (searchRun inp).sleptMs.length * sleepIntervalMs := by
      have h2 := List.sum_le_card_nsmul (searchRun inp).sleptMs sleepIntervalMs
        (fun x hx => le_of_eq (key.1 x hx))
      simpa [smul_eq_mul] using h2
    exact le_trans h1 (Nat.mul_le_mul_right _ key.2)

/-- C10: the nominally optional fields are load-bearing: a success outcome
(no stored failure) requires every processed poll to have returned a
snapshot with a parsable 'elapsed' field and the loop-ending snapshot to
carry a 'count' field; a first snapshot lacking 'elapsed' makes the
worker store KeyError('elapsed') as the Failure outcome, and a normal
loop exit whose snapshot lacks 'count' stores KeyError('count'). -/
theorem C10_optional_fields (inp : TaskInput) (hsub : inp.submit = Except.ok ()) :
    ((searchRun inp).exception = none →
      ∀ k, k < (searchRun inp).polls →
        ∃ sn, inp.poll k = Except.ok sn ∧ (sn.elapsed.bind duration).isSome) ∧
    (∀ s' snap, searchLoop inp.poll inp.max_requests {} = (s', LoopExit.ready snap) →
      (searchRun inp).exception = none → snap.count.isSome) ∧
    (∀ snap, 0 < inp.max_requests → inp.poll 0 = Except.ok snap → snap.elapsed = none →
      (searchRun inp).exception = some (PyExn.keyError "elapsed")) ∧
    (∀ k snap, k < inp.max_requests →
      (∀ j, j < k → stepExit (inp.poll j) = StepExit.next) →
      stepExit (inp.poll k) = StepExit.brk snap → snap.count = none →
      (searchRun inp).exception = some (PyExn.keyError "count")) := by
  refine ⟨?_, ?_, ?_, ?_⟩
  · intro hexc k hk
    rcases hL : searchLoop inp.poll inp.max_requests {} with ⟨s', ex⟩
    cases ex with
    | raised e =>
      rw [searchRun_eq_raised inp hsub s' e hL] at hexc
      exact absurd hexc (by simp)
    | exhausted =>
      rw [searchRun_eq_exhausted inp hsub s' hL] at hexc
      exact absurd hexc (by simp)
    | ready snap =>
      rw [searchRun_eq_ready inp hsub s' snap hL,
        (fetchResults_preserve inp.fetch s' snap).1] at hk
      exact searchLoop_ready_processed inp.poll inp.max_requests {} s' snap hL k
        (Nat.zero_le k) hk
  · intro s' snap hL hexc
    rw [searchRun_eq_ready inp hsub s' snap hL] at hexc
    rcases hc : snap.count with _ | c
    · simp only [fetchResults, hc] at hexc
      exact absurd hexc (by simp)
    · simp [hc]
  · intro snap hmax hp0 hel
    have hx0 : stepExit (inp.poll (({} : ResultsState).polls + 0))
        = StepExit.raised (PyExn.keyError "elapsed") := by
      show stepExit (inp.poll (0 + 0)) = _
      rw [Nat.zero_add, hp0]
      exact stepExit_elapsed_keyError snap hel
    obtain ⟨s', heq⟩ :=
      searchLoop_raised_at inp.poll 0 inp.max_requests {} _ hmax
        (fun j hj => absurd hj (Nat.not_lt_zero j)) hx0
    rw [searchRun_eq_raised inp hsub s' _ heq]
  · intro k snap hk hb hx hc
    obtain ⟨s', heq, hmsg, hp⟩ :=
      searchLoop_brk_at inp.poll k inp.max_requests {} snap hk
        (by
          intro j hj
          show stepExit (inp.poll (0 + j)) = StepExit.next
          rw [Nat.zero_add]
          exact hb j hj)
        (by
          show stepExit (inp.poll (0 + k)) = StepExit.brk snap
          rw [Nat.zero_add]
          exact hx)
    rw [searchRun_eq_ready inp hsub s' snap heq]
    simp only [fetchResults, hc]

/-- C10 witness: a poller whose snapshots lack the 'elapsed' key makes the
very first poll store KeyError('elapsed') as the Failure outcome. -/
theorem C10_witness :
    (searchRun exC10).exception = some (PyExn.keyError "elapsed") := by
  have h := C10_optional_fields exC10 rfl
  exact h.2.2.1 { status := "Processing", message := some "" } (by decide) rfl rfl

end ChemSpiPy
